import Mathlib

/-!
Shallow embedding of `src/kasper_telegram_bot.py` (KAgent repository).

The bot forwards Telegram text turns to a realtime GPT websocket, runs the
reply through a TTS service, converts the MP3 to OGG and sends it back as a
voice note, under a per-user daily message quota.

Modelling conventions:
* Times are `Nat` seconds (the code compares `datetime.utcnow()` values;
  only the order and the `+ 24h` shifts matter).
* `USER_MESSAGE_LIMITS[user]` is a `RateInfo` record (`count`, `reset_time`),
  passed in and returned explicitly instead of mutated in place.
* External services (the websocket stream, ElevenLabs TTS, ffmpeg
  conversion, Telegram voice send) are modelled by the values they return
  for the one turn being handled: the incoming event stream is a
  `List RawMsg`, the TTS and conversion results are byte lists (empty list
  = the failure value `b""` / empty buffer the code checks for), and the
  voice-send outcome is a `VoiceSendResult`.
* Replies sent to the Telegram user are collected in an action trace;
  message strings are the code's strings transliterated to ASCII (emoji
  and markdown stripped).
-/

set_option linter.unusedVariables false

/-- One raw websocket message as inspected by `send_message_gpt`:
`empty` is a falsy message (`if not message: break`); `nonJson` fails
`json.loads`; `json typ txt` decodes to an object whose `"type"` field is
`typ`, and `txt` is the result of extracting
`data["response"]["output"][0]["content"][0]["text"]` (`none` meaning the
extraction raises `IndexError`/`KeyError`). -/
inductive RawMsg where
  | empty : RawMsg
  | nonJson (s : String) : RawMsg
  | json (typ : String) (txt : Option String) : RawMsg
deriving DecidableEq, Repr

/-- Outbound wire events on the GPT websocket. `responseCreate` is the
`{"type": "response.create", ...}` event the code sends; `keepaliveAck` is
the spec's keepalive answer event (part of the spec's outbound vocabulary;
the code never constructs it). -/
inductive OutMsg where
  | responseCreate (instructions : String) : OutMsg
  | keepaliveAck (id : String) : OutMsg
deriving DecidableEq, Repr

def OutMsg.isAck : OutMsg → Bool
  | .keepaliveAck _ => true
  | _ => false

/-- One reply action towards the Telegram user. -/
inductive BotAction where
  | replyText (s : String) : BotAction
  | replyVoice (bytes : List Nat) : BotAction
deriving DecidableEq, Repr

def BotAction.isVoice : BotAction → Bool
  | .replyVoice _ => true
  | _ => false

/-- Per-user entry of `USER_MESSAGE_LIMITS`:
`{"count": ..., "reset_time": ...}`. -/
structure RateInfo where
  count : Nat
  resetTime : Nat
deriving DecidableEq, Repr

/-- Per-user entry of `USER_SESSIONS`: the websocket handle (an identifier
of an open connection, or `none`) and the persona text. -/
structure Session where
  ws : Option Nat
  persona : String
deriving DecidableEq, Repr

/-- `timedelta(hours=24)` in seconds. -/
def windowDuration : Nat := 24 * 60 * 60

/-- Default of `MAX_MESSAGES_PER_USER = int(os.getenv(..., "15"))`. -/
def MAX_MESSAGES_PER_USER : Nat := 15

/-- The KASPER persona string built in `start_command` (abbreviated: no
claim depends on its content, only on it being the session's persona). -/
def kasper_persona : String :=
  "You are KASPER, the friendly ghost of Kaspa (KRC20)."

/-- Reply strings of the handlers, transliterated to ASCII. -/
def startPromptMsg : String :=
  "Please type /start first to begin the conversation with KASPER."

def quotaMsg (max : Nat) : String :=
  "You have reached the limit of " ++ toString max ++
    " messages for today. Please try again tomorrow."

def wsUnavailableMsg : String := "WebSocket not available. Please /start again."

def recordingMsg : String := "KASPER is recording a message..."

def oopsReply : String :=
  "Oops, KASPER could not come up with anything. (Ghostly shrug.)"

def couldNotProcessMsg : String := "Sorry, I could not process your request."

def conversionFailedMsg : String := "Failed to convert audio. Please try again."

def voiceForbiddenMsg : String :=
  "I cannot send voice messages to you. Please check your Telegram settings or try sending a different type of message."

def voiceSendErrorMsg : String :=
  "An error occurred while sending the voice message. Please try again later."

def voiceUnexpectedMsg : String :=
  "An unexpected error occurred while sending the voice message. Please try again later."

def remainingMsg (n : Nat) : String :=
  "You have " ++ toString n ++ " messages left today."

def noMessagesLeftMsg : String :=
  "You have no messages left for today. Please try again tomorrow."

def newConversationMsg : String :=
  "KASPER is here! A fresh conversation has started. You have 20 daily messages. Lets chat!"

def couldNotConnectMsg : String := "Could not connect to GPT. Please try again later."

/-- The prompt assembled at the top of `send_message_gpt`. -/
def combined_prompt (persona user_text : String) : String :=
  persona ++ "\n\nUser: " ++ user_text ++ "\nKASPER:"

/-- The `async for message in ws` loop of `send_message_gpt`:
a falsy message breaks with the text gathered so far (`""` until
`response.done`); a non-JSON message is logged and `continue`d; a decoded
event with any type other than `"response.done"` falls through and the
loop continues; `"response.done"` extracts the final text (logging the
error and keeping `""` if extraction fails) and breaks. -/
def gptLoop : List RawMsg → String
  | [] => ""
  | .empty :: _ => ""
  | .nonJson _ :: rest => gptLoop rest
  | .json typ txt :: rest =>
    if typ = "response.done" then
      match txt with
      | some t => t
      | none => ""
    else gptLoop rest

/-- `send_message_gpt(ws, user_text, persona)`: sends one
`response.create` event carrying the combined prompt, then consumes the
stream with `gptLoop`. Returns the final text and the outbound traffic (in
send order) on the connection. -/
def send_message_gpt (user_text persona : String) (stream : List RawMsg) :
    String × List OutMsg :=
  (gptLoop stream, [OutMsg.responseCreate (combined_prompt persona user_text)])

/-- Python `str.strip()`: drop leading and trailing whitespace. (Defined
by structural recursion over the character list so that concrete instances
evaluate in the kernel.) -/
def pyStrip (s : String) : String :=
  ⟨List.reverse (List.dropWhile Char.isWhitespace
    (List.reverse (List.dropWhile Char.isWhitespace s.data)))⟩

/-- Lines 285-287 of `handle_text_message`:
`if datetime.utcnow() >= rate_info["reset_time"]: count = 0;
reset_time = now + 24h`. -/
def resetIfExpired (now : Nat) (r : RateInfo) : RateInfo :=
  if r.resetTime ≤ now then ⟨0, now + windowDuration⟩ else r

/-- Outcome of the `update.message.reply_voice` call, including the
exception cases the code distinguishes. -/
inductive VoiceSendResult where
  | ok : VoiceSendResult
  | badRequestForbidden : VoiceSendResult
  | badRequestOther : VoiceSendResult
  | telegramError : VoiceSendResult
  | otherError : VoiceSendResult
deriving DecidableEq, Repr

/-- Result of one `handle_text_message` call: the user's new
`USER_MESSAGE_LIMITS` entry, the reply actions sent to the user (in
order), whether the turn was forwarded to the GPT backend, and the GPT
reply text computed for the turn (`none` when the backend was never
reached). -/
structure HandleResult where
  rate : RateInfo
  actions : List BotAction
  forwarded : Bool
  gptText : Option String
deriving DecidableEq, Repr

/-- `handle_text_message`, for one user. Arguments: quota `max`
(`MAX_MESSAGES_PER_USER`), current time, the user's `USER_SESSIONS` entry,
the user's `USER_MESSAGE_LIMITS` entry, the message text, and the external
results for this turn (websocket stream, TTS bytes, converted OGG bytes,
voice-send outcome). Mirrors the source control flow:
no session → prompt for /start; lazy window reset; quota check (deny and
return before any increment); `count += 1`; empty stripped text → silent
return; missing websocket → error return; otherwise send to GPT, TTS,
convert, send voice (send errors replied but not fatal), then report the
remaining quota. -/
def handle_text_message (max now : Nat) (session : Option Session)
    (r : RateInfo) (text : String) (stream : List RawMsg)
    (ttsAudio oggAudio : List Nat) (voiceRes : VoiceSendResult) :
    HandleResult :=
  match session with
  | none => ⟨r, [.replyText startPromptMsg], false, none⟩
  | some s =>
    let r1 := resetIfExpired now r
    if max ≤ r1.count then
      ⟨r1, [.replyText (quotaMsg max)], false, none⟩
    else
      let r2 : RateInfo := ⟨r1.count + 1, r1.resetTime⟩
      let remaining := max - r2.count
      if pyStrip text = "" then
        ⟨r2, [], false, none⟩
      else
        match s.ws with
        | none => ⟨r2, [.replyText wsUnavailableMsg], false, none⟩
        | some _ =>
          let gpt := (send_message_gpt (pyStrip text) s.persona stream).1
          let gptReply := if gpt = "" then oopsReply else gpt
          if ttsAudio = [] then
            ⟨r2, [.replyText recordingMsg, .replyText couldNotProcessMsg],
              true, some gptReply⟩
          else if oggAudio = [] then
            ⟨r2, [.replyText recordingMsg, .replyText conversionFailedMsg],
              true, some gptReply⟩
          else
            let voiceActs : List BotAction :=
              match voiceRes with
              | .ok => [.replyVoice oggAudio]
              | .badRequestForbidden => [.replyText voiceForbiddenMsg]
              | .badRequestOther => [.replyText voiceSendErrorMsg]
              | .telegramError => [.replyText voiceUnexpectedMsg]
              | .otherError => [.replyText voiceSendErrorMsg]
            let tail : List BotAction :=
              if 0 < remaining then [.replyText (remainingMsg remaining)]
              else [.replyText noMessagesLeftMsg]
            ⟨r2, .replyText recordingMsg :: (voiceActs ++ tail), true,
              some gptReply⟩

/-- Inputs of one `handle_text_message` call that vary per turn. -/
structure TurnInput where
  now : Nat
  text : String
  stream : List RawMsg
  ttsAudio : List Nat
  oggAudio : List Nat
  voiceRes : VoiceSendResult
deriving DecidableEq, Repr

/-- A sequence of text turns from one user, threading the user's
`USER_MESSAGE_LIMITS` entry from call to call (the session entry is not
written by `handle_text_message`, so it is fixed). -/
def runTurns (max : Nat) (session : Option Session) :
    RateInfo → List TurnInput → List HandleResult
  | _, [] => []
  | r, i :: rest =>
    let res := handle_text_message max i.now session r i.text i.stream
      i.ttsAudio i.oggAudio i.voiceRes
    res :: runTurns max session res.rate rest

/-- The first phase of `start_command`: close the previous session's
websocket, if any. `conns` is the set of currently open connection
identifiers; closing removes the handle from it. -/
def start_close_phase : Option Session → List Nat → List Nat
  | some s, conns =>
    match s.ws with
    | some w => conns.filter (fun x => x != w)
    | none => conns
  | none, conns => conns

/-- Result of `start_command` for one user: the user's new `USER_SESSIONS`
entry, new `USER_MESSAGE_LIMITS` entry, the open-connection set, and the
replies sent. -/
structure StartResult where
  session : Session
  rate : RateInfo
  openConns : List Nat
  actions : List BotAction
deriving DecidableEq, Repr

/-- `start_command`, for one user: close the old websocket, install a
fresh session record (`ws = None`, the persona), overwrite the rate entry
with `count = 0`, `reset_time = now + 24h`, then connect; on success store
the new websocket handle (`connectResult` is the fresh handle, `none` when
`openai_realtime_connect` fails). `oldRate` is the entry being
overwritten. -/
def start_command (now : Nat) (oldRate : RateInfo) (oldSession : Option Session)
    (conns : List Nat) (connectResult : Option Nat) : StartResult :=
  let conns1 := start_close_phase oldSession conns
  let freshRate : RateInfo := ⟨0, now + windowDuration⟩
  match connectResult with
  | some c =>
    ⟨⟨some c, kasper_persona⟩, freshRate, c :: conns1,
      [.replyText newConversationMsg]⟩
  | none =>
    ⟨⟨none, kasper_persona⟩, freshRate, conns1,
      [.replyText couldNotConnectMsg]⟩

/-! ## Basic lemmas about the rate-limit window -/

theorem resetIfExpired_of_lt {now : Nat} {r : RateInfo} (h : now < r.resetTime) :
    resetIfExpired now r = r := by
  simp [resetIfExpired, Nat.not_le.mpr h]

theorem resetIfExpired_of_ge {now : Nat} {r : RateInfo} (h : r.resetTime ≤ now) :
    resetIfExpired now r = ⟨0, now + windowDuration⟩ := by
  simp [resetIfExpired, h]

theorem handle_denied (max now : Nat) (s : Session) (r : RateInfo)
    (text : String) (stream : List RawMsg) (tts ogg : List Nat)
    (v : VoiceSendResult) (h1 : now < r.resetTime) (h2 : max ≤ r.count) :
    handle_text_message max now (some s) r text stream tts ogg v
      = ⟨r, [.replyText (quotaMsg max)], false, none⟩ := by
  simp [handle_text_message, resetIfExpired_of_lt h1, h2]

theorem handle_rate_eq (max now : Nat) (s : Session) (r : RateInfo)
    (text : String) (stream : List RawMsg) (tts ogg : List Nat)
    (v : VoiceSendResult) :
    (handle_text_message max now (some s) r text stream tts ogg v).rate
      = if max ≤ (resetIfExpired now r).count then resetIfExpired now r
        else ⟨(resetIfExpired now r).count + 1, (resetIfExpired now r).resetTime⟩ := by
  rcases s with ⟨ws, persona⟩
  cases ws <;> cases v <;>
    simp only [handle_text_message] <;> split_ifs <;> rfl

theorem handle_accept (max now : Nat) (s : Session) (w : Nat) (r : RateInfo)
    (text : String) (stream : List RawMsg) (tts ogg : List Nat)
    (v : VoiceSendResult) (hws : s.ws = some w) (h1 : now < r.resetTime)
    (h2 : r.count < max) (h3 : pyStrip text ≠ "") :
    (handle_text_message max now (some s) r text stream tts ogg v).forwarded = true
    ∧ (handle_text_message max now (some s) r text stream tts ogg v).rate
        = ⟨r.count + 1, r.resetTime⟩ := by
  rcases s with ⟨ws, persona⟩
  cases hws
  cases v <;>
    simp [handle_text_message, resetIfExpired_of_lt h1, Nat.not_le.mpr h2, h3] <;>
    split_ifs <;> simp

theorem handle_congr_reset (max now : Nat) (s : Session) (r r2 : RateInfo)
    (text : String) (stream : List RawMsg) (tts ogg : List Nat)
    (v : VoiceSendResult) (h : resetIfExpired now r = resetIfExpired now r2) :
    handle_text_message max now (some s) r text stream tts ogg v
      = handle_text_message max now (some s) r2 text stream tts ogg v := by
  simp only [handle_text_message, h]

/-! ## Claims -/

/-- Claim C1: for a user with a session, once the accepted-turn count in
the current 24h window has reached the quota `max`
(`MAX_MESSAGES_PER_USER`, default 15), every further text turn submitted
before the window end (`reset_time`) is answered with the quota message,
is not forwarded to the backend, and leaves the rate state unchanged —
so the denial persists until the window elapses. -/
theorem quota_denial_persists (max : Nat) (s : Session) (r : RateInfo)
    (inputs : List TurnInput) (hcount : max ≤ r.count)
    (htimes : ∀ i ∈ inputs, i.now < r.resetTime) :
    runTurns max (some s) r inputs
      = inputs.map (fun _ => ⟨r, [.replyText (quotaMsg max)], false, none⟩) := by
  induction inputs with
  | nil => rfl
  | cons i rest ih =>
    have hi : i.now < r.resetTime := htimes i (List.mem_cons_self i rest)
    have hstep := handle_denied max i.now s r i.text i.stream i.ttsAudio
      i.oggAudio i.voiceRes hi hcount
    simp only [runTurns, hstep, List.map_cons]
    exact congrArg (List.cons _)
      (ih (fun j hj => htimes j (List.mem_cons_of_mem i hj)))

/-- Witness for `quota_denial_persists`: quota 15 exhausted, two further
turns inside the window are both denied with the quota message. -/
theorem quota_denial_persists_w :
    runTurns 15 (some ⟨some 1, "p"⟩) ⟨15, 86400⟩
        [⟨0, "hi", [], [], [], .ok⟩, ⟨100, "yo", [], [], [], .ok⟩]
      = [⟨⟨15, 86400⟩, [.replyText (quotaMsg 15)], false, none⟩,
         ⟨⟨15, 86400⟩, [.replyText (quotaMsg 15)], false, none⟩] := by
  have h := quota_denial_persists 15 ⟨some 1, "p"⟩ ⟨15, 86400⟩
      [⟨0, "hi", [], [], [], .ok⟩, ⟨100, "yo", [], [], [], .ok⟩]
      (by decide)
      (by intro i hi; simp only [List.mem_cons, List.not_mem_nil, or_false] at hi
          rcases hi with rfl | rfl <;> decide)
  simpa using h

/-- Claim C2 counterexample: the code has no cooldown. Two turns 1 second
apart (well under the claimed 45-second cooldown), user under quota: both
turns are forwarded to the backend; the second is not denied. -/
theorem cooldown_absent_cx :
    (runTurns 15 (some ⟨some 1, "p"⟩) ⟨0, 86400⟩
        [⟨100, "hi", [RawMsg.json "response.done" (some "boo")], [1], [2], .ok⟩,
         ⟨101, "yo", [RawMsg.json "response.done" (some "moo")], [1], [2], .ok⟩]).map
        HandleResult.forwarded = [true, true]
    ∧ 101 - 100 < 45 := by decide

/-- Claim C2 amended: `handle_text_message` implements no cooldown and no
`retryAfter`; whenever the user has a session with a live websocket and is
under quota, a turn is accepted and forwarded regardless of how little
time elapsed since the previous accepted turn — in particular two
non-empty turns less than 45 seconds apart are both forwarded. -/
theorem no_cooldown_between_turns (max : Nat) (s : Session) (w : Nat)
    (r : RateInfo) (i1 i2 : TurnInput) (hws : s.ws = some w)
    (hgap : i2.now < i1.now + 45)
    (ht1 : i1.now < r.resetTime) (ht2 : i2.now < r.resetTime)
    (hq : r.count + 1 < max)
    (htx1 : pyStrip i1.text ≠ "") (htx2 : pyStrip i2.text ≠ "") :
    (runTurns max (some s) r [i1, i2]).map HandleResult.forwarded
      = [true, true] := by
  have a1 := handle_accept max i1.now s w r i1.text i1.stream i1.ttsAudio
    i1.oggAudio i1.voiceRes hws ht1 (by omega) htx1
  have a2 := handle_accept max i2.now s w ⟨r.count + 1, r.resetTime⟩ i2.text
    i2.stream i2.ttsAudio i2.oggAudio i2.voiceRes hws ht2 hq htx2
  simp only [runTurns, List.map_cons, List.map_nil, a1.1, a1.2, a2.1]

/-- Witness for `no_cooldown_between_turns`: two turns 1 second apart are
both forwarded. -/
theorem no_cooldown_between_turns_w :
    (runTurns 15 (some ⟨some 1, "p"⟩) ⟨0, 86400⟩
        [⟨200, "hi", [], [], [], .ok⟩, ⟨201, "yo", [], [], [], .ok⟩]).map
        HandleResult.forwarded = [true, true] :=
  no_cooldown_between_turns 15 ⟨some 1, "p"⟩ 1 ⟨0, 86400⟩
    ⟨200, "hi", [], [], [], .ok⟩ ⟨201, "yo", [], [], [], .ok⟩ rfl
    (by decide) (by decide) (by decide) (by decide) (by decide) (by decide)

/-- Claim C3: on a rate-limit check (session present), if the current time
has reached `reset_time`, the window is reset — `resetIfExpired` yields
`count = 0` with the window end advanced to `now + 24h` — and the whole
check behaves exactly as if the stored state were that freshly reset
state, i.e. the reset happens before the quota is evaluated. The reset is
lazy: it is performed inside the check itself (`resetIfExpired` inside
`handle_text_message`), not by a timer. -/
theorem lazy_window_reset (max now : Nat) (s : Session) (r : RateInfo)
    (text : String) (stream : List RawMsg) (tts ogg : List Nat)
    (v : VoiceSendResult) (h : r.resetTime ≤ now) :
    resetIfExpired now r = ⟨0, now + windowDuration⟩
    ∧ handle_text_message max now (some s) r text stream tts ogg v
        = handle_text_message max now (some s) ⟨0, now + windowDuration⟩
            text stream tts ogg v := by
  refine ⟨resetIfExpired_of_ge h, ?_⟩
  apply handle_congr_reset
  rw [resetIfExpired_of_ge h, resetIfExpired_of_lt]
  show now < now + windowDuration
  have hw : 0 < windowDuration := by decide
  omega

/-- Witness for `lazy_window_reset` at time 100 with a window that ended
at 50. -/
theorem lazy_window_reset_w :
    resetIfExpired 100 ⟨7, 50⟩ = ⟨0, 100 + windowDuration⟩
    ∧ handle_text_message 15 100 (some ⟨some 1, "p"⟩) ⟨7, 50⟩ "hi" [] [] [] .ok
        = handle_text_message 15 100 (some ⟨some 1, "p"⟩)
            ⟨0, 100 + windowDuration⟩ "hi" [] [] [] .ok :=
  lazy_window_reset 15 100 ⟨some 1, "p"⟩ ⟨7, 50⟩ "hi" [] [] [] .ok (by decide)

/-- Claim C4 counterexample: `start_command` resets the rate count outside
window expiry. At time 0, with the user's window still running
(`reset_time = 1000`) and `count = 5`, a `/start` sets the count to 0 —
the count is decremented by an operation other than window expiry. -/
theorem start_resets_count_cx :
    (start_command 0 ⟨5, 1000⟩ (some ⟨some 1, "p"⟩) [1] (some 2)).rate.count = 0
    ∧ (0 : Nat) < 1000
    ∧ (start_command 0 ⟨5, 1000⟩ (some ⟨some 1, "p"⟩) [1] (some 2)).rate.count < 5 := by
  decide

/-- Claim C4 amended: the rate count never decreases at a text-message
check while the window is running, the window advances (with count ≤ 1)
exactly when a check happens at or after `reset_time` with a session
present, and the one further operation that resets the count is
`start_command`, which unconditionally overwrites the entry with
`count = 0`, `reset_time = now + 24h`. -/
theorem count_reset_on_expiry_or_start (max now : Nat)
    (session : Option Session) (r : RateInfo) (text : String)
    (stream : List RawMsg) (tts ogg : List Nat) (v : VoiceSendResult)
    (oldRate : RateInfo) (oldSession : Option Session) (conns : List Nat)
    (cr : Option Nat) :
    (now < r.resetTime →
        r.count ≤ (handle_text_message max now session r text stream tts ogg v).rate.count
        ∧ (handle_text_message max now session r text stream tts ogg v).rate.resetTime
            = r.resetTime)
    ∧ (r.resetTime ≤ now → session ≠ none →
        (handle_text_message max now session r text stream tts ogg v).rate.resetTime
            = now + windowDuration
        ∧ (handle_text_message max now session r text stream tts ogg v).rate.count ≤ 1)
    ∧ (start_command now oldRate oldSession conns cr).rate
        = ⟨0, now + windowDuration⟩ := by
  refine ⟨?_, ?_, ?_⟩
  · intro h1
    cases session with
    | none => exact ⟨Nat.le_refl _, rfl⟩
    | some s =>
      rw [handle_rate_eq, resetIfExpired_of_lt h1]
      split_ifs <;> simp
  · intro h1 hs
    cases session with
    | none => exact absurd rfl hs
    | some s =>
      rw [handle_rate_eq, resetIfExpired_of_ge h1]
      split_ifs <;> simp_all
  · cases oldSession <;> cases cr <;> rfl

/-- Witness for `count_reset_on_expiry_or_start`: a running-window check
(count 5 → 6), an expired-window check (window advances, count ≤ 1), and a
`/start` overwrite. -/
theorem count_reset_on_expiry_or_start_w :
    ((5 : Nat) ≤ (handle_text_message 15 0 (some ⟨some 1, "p"⟩) ⟨5, 1000⟩ "hi" [] [] [] .ok).rate.count
      ∧ (handle_text_message 15 0 (some ⟨some 1, "p"⟩) ⟨5, 1000⟩ "hi" [] [] [] .ok).rate.resetTime = 1000)
    ∧ ((handle_text_message 15 2000 (some ⟨some 1, "p"⟩) ⟨5, 1000⟩ "hi" [] [] [] .ok).rate.resetTime
          = 2000 + windowDuration
      ∧ (handle_text_message 15 2000 (some ⟨some 1, "p"⟩) ⟨5, 1000⟩ "hi" [] [] [] .ok).rate.count ≤ 1)
    ∧ (start_command 7 ⟨5, 1000⟩ none [] none).rate = ⟨0, 7 + windowDuration⟩ :=
  ⟨(count_reset_on_expiry_or_start 15 0 (some ⟨some 1, "p"⟩) ⟨5, 1000⟩ "hi"
      [] [] [] .ok ⟨5, 1000⟩ none [] none).1 (by decide),
   (count_reset_on_expiry_or_start 15 2000 (some ⟨some 1, "p"⟩) ⟨5, 1000⟩ "hi"
      [] [] [] .ok ⟨5, 1000⟩ none [] none).2.1 (by decide) (by decide),
   (count_reset_on_expiry_or_start 15 7 none ⟨5, 1000⟩ "hi"
      [] [] [] .ok ⟨5, 1000⟩ none [] none).2.2⟩

/-- Claim C5 counterexample: quota is consumed for a turn that is not
processed. With a session, websocket available, count 0 and the window
running, a whitespace-only message increments the count to 1 although
nothing is forwarded to the backend and no reply of any kind is sent —
`consume` happens before the caller has committed to processing the
turn. -/
theorem discarded_turn_consumes_cx :
    handle_text_message 15 0 (some ⟨some 1, "p"⟩) ⟨0, 86400⟩ "   " [] [] [] .ok
      = ⟨⟨1, 86400⟩, [], false, none⟩ := by decide

/-- Claim C5 amended: a Denied check (window running, count at the quota)
leaves the rate state unchanged and has no side effects — no forward, no
increment; but one unit of quota is consumed by every turn that passes the
check, at check-pass time, even if the turn is then discarded (empty
stripped text, missing websocket) rather than processed. -/
theorem consume_at_check_pass (max now : Nat) (s : Session) (r : RateInfo)
    (text : String) (stream : List RawMsg) (tts ogg : List Nat)
    (v : VoiceSendResult) (h1 : now < r.resetTime) :
    (max ≤ r.count →
        handle_text_message max now (some s) r text stream tts ogg v
          = ⟨r, [.replyText (quotaMsg max)], false, none⟩)
    ∧ (r.count < max →
        (handle_text_message max now (some s) r text stream tts ogg v).rate
          = ⟨r.count + 1, r.resetTime⟩) := by
  constructor
  · intro h2
    exact handle_denied max now s r text stream tts ogg v h1 h2
  · intro h2
    rw [handle_rate_eq, resetIfExpired_of_lt h1]
    simp [Nat.not_le.mpr h2]

/-- Witness for `consume_at_check_pass`: a denied check leaves the state
at (15, 86400); a passed check on a whitespace-only (discarded) turn still
increments 3 → 4. -/
theorem consume_at_check_pass_w :
    (handle_text_message 15 0 (some ⟨some 1, "p"⟩) ⟨15, 86400⟩ "hi" [] [] [] .ok
        = ⟨⟨15, 86400⟩, [.replyText (quotaMsg 15)], false, none⟩)
    ∧ (handle_text_message 15 0 (some ⟨some 1, "p"⟩) ⟨3, 86400⟩ "  " [] [] [] .ok).rate
        = ⟨4, 86400⟩ :=
  ⟨(consume_at_check_pass 15 0 ⟨some 1, "p"⟩ ⟨15, 86400⟩ "hi" [] [] [] .ok
      (by decide)).1 (by decide),
   (consume_at_check_pass 15 0 ⟨some 1, "p"⟩ ⟨3, 86400⟩ "  " [] [] [] .ok
      (by decide)).2 (by decide)⟩

/-- Claim C6: `start_command` for a user with an existing session closes
the prior websocket in its first phase, before the new connection is
stored: the old handle is gone from the open set already after the close
phase, stays gone in the final state, the new session holds only the new
handle, and the final open set is the new handle consed onto the
close-phase result — so at no point are two connections for the user
open, and at most one logical session (the map entry) exists. -/
theorem single_open_connection_per_user (now : Nat) (oldRate : RateInfo)
    (s : Session) (w c : Nat) (conns : List Nat)
    (hw : s.ws = some w) (hc : c ≠ w) :
    w ∉ start_close_phase (some s) conns
    ∧ w ∉ (start_command now oldRate (some s) conns (some c)).openConns
    ∧ (start_command now oldRate (some s) conns (some c)).session.ws = some c
    ∧ (start_command now oldRate (some s) conns (some c)).openConns
        = c :: start_close_phase (some s) conns := by
  have hclose : w ∉ start_close_phase (some s) conns := by
    simp only [start_close_phase, hw]
    intro hmem
    rcases List.mem_filter.mp hmem with ⟨-, hp⟩
    simp at hp
  refine ⟨hclose, ?_, rfl, rfl⟩
  intro hmem
  rcases List.mem_cons.mp hmem with heq | hmem2
  · exact hc heq.symm
  · exact hclose hmem2

/-- Witness for `single_open_connection_per_user`: old handle 7, new
handle 8. -/
theorem single_open_connection_per_user_w :
    7 ∉ start_close_phase (some ⟨some 7, "p"⟩) [7]
    ∧ 7 ∉ (start_command 0 ⟨0, 86400⟩ (some ⟨some 7, "p"⟩) [7] (some 8)).openConns
    ∧ (start_command 0 ⟨0, 86400⟩ (some ⟨some 7, "p"⟩) [7] (some 8)).session.ws = some 8
    ∧ (start_command 0 ⟨0, 86400⟩ (some ⟨some 7, "p"⟩) [7] (some 8)).openConns
        = 8 :: start_close_phase (some ⟨some 7, "p"⟩) [7] :=
  single_open_connection_per_user 0 ⟨0, 86400⟩ ⟨some 7, "p"⟩ 7 8 [7] rfl
    (by decide)

/-- Claim C7 counterexample: a `keepalive_probe` event in the stream is
never answered. The turn's outbound traffic is the single initial
`response.create` event; it contains no `keepalive_ack`. -/
theorem keepalive_unanswered_cx :
    (send_message_gpt "hi" "p"
        [RawMsg.json "keepalive_probe" none,
         RawMsg.json "response.done" (some "boo")]).2
      = [OutMsg.responseCreate (combined_prompt "p" "hi")]
    ∧ List.filter OutMsg.isAck
        (send_message_gpt "hi" "p"
          [RawMsg.json "keepalive_probe" none,
           RawMsg.json "response.done" (some "boo")]).2
      = [] := by decide

/-- Claim C7 amended: the program sends no keepalive acks at all —
incoming `keepalive_probe` events are ignored like every other
non-`response.done` event, and for any stream whatsoever the only
outbound traffic of a turn is the single `response.create` event sent
before the receive loop starts. -/
theorem outbound_only_turn_event (user_text persona : String)
    (stream : List RawMsg) :
    (send_message_gpt user_text persona stream).2
      = [OutMsg.responseCreate (combined_prompt persona user_text)] := rfl

/-- Claim C8 counterexample: a single bad event can terminate an
otherwise-healthy turn. A falsy (empty) raw message makes the receive
loop break immediately: the healthy `response.done` event behind it is
never processed and the final text is lost (empty instead of "hello"). -/
theorem empty_event_terminates_cx :
    (send_message_gpt "u" "p"
        [RawMsg.empty, RawMsg.json "response.done" (some "hello")]).1 = ""
    ∧ (send_message_gpt "u" "p"
        [RawMsg.json "response.done" (some "hello")]).1 = "hello" := by decide

/-- Claim C8 amended: non-JSON raw messages and decoded events of unknown
type are logged and skipped, and the receive loop continues past them —
but a falsy (empty) raw message breaks the loop, terminating the turn
with whatever text was gathered (none), so not every malformed event is
survivable. -/
theorem bad_event_skipping (s typ : String) (txt : Option String)
    (rest : List RawMsg) (h : typ ≠ "response.done") :
    gptLoop (RawMsg.nonJson s :: rest) = gptLoop rest
    ∧ gptLoop (RawMsg.json typ txt :: rest) = gptLoop rest
    ∧ gptLoop (RawMsg.empty :: rest) = "" := by
  refine ⟨rfl, ?_, rfl⟩
  simp [gptLoop, h]

/-- Witness for `bad_event_skipping`: a non-JSON message and an unknown
event type are skipped (the `response.done` behind them still decides the
text), and an empty message ends the loop. -/
theorem bad_event_skipping_w :
    gptLoop [RawMsg.nonJson "x", RawMsg.json "response.done" (some "t")]
      = gptLoop [RawMsg.json "response.done" (some "t")]
    ∧ gptLoop [RawMsg.json "session.created" none,
        RawMsg.json "response.done" (some "t")]
      = gptLoop [RawMsg.json "response.done" (some "t")]
    ∧ gptLoop [RawMsg.empty, RawMsg.json "response.done" (some "t")] = "" :=
  bad_event_skipping "x" "session.created" none
    [RawMsg.json "response.done" (some "t")] (by decide)

/-- Claim C9 counterexample: a turn that completes with final text "boo"
but whose TTS call returns no audio bytes does not succeed with a
text-only reply: the user gets the generic error message, the final text
is never delivered, and no voice message is sent. -/
theorem no_audio_fails_cx :
    handle_text_message 15 0 (some ⟨some 1, "p"⟩) ⟨0, 86400⟩ "hi"
        [RawMsg.json "response.done" (some "boo")] [] [7] .ok
      = ⟨⟨1, 86400⟩,
          [.replyText recordingMsg, .replyText couldNotProcessMsg],
          true, some "boo"⟩
    ∧ BotAction.replyText "boo"
        ∉ [BotAction.replyText recordingMsg,
           BotAction.replyText couldNotProcessMsg]
    ∧ List.filter BotAction.isVoice
        [BotAction.replyText recordingMsg,
         BotAction.replyText couldNotProcessMsg] = [] := by decide

/-- Claim C9 amended: when the backend turn completes (final text
computed) but TTS returns no audio bytes, `handle_text_message` treats the
turn as failed: it replies with the status message and the generic error
message only — the final text is not delivered in any form. -/
theorem no_audio_turn_errors (max now : Nat) (s : Session) (w : Nat)
    (r : RateInfo) (text : String) (stream : List RawMsg) (ogg : List Nat)
    (v : VoiceSendResult) (hws : s.ws = some w) (h1 : now < r.resetTime)
    (h2 : r.count < max) (h3 : pyStrip text ≠ "") :
    handle_text_message max now (some s) r text stream [] ogg v
      = ⟨⟨r.count + 1, r.resetTime⟩,
          [.replyText recordingMsg, .replyText couldNotProcessMsg], true,
          some (if gptLoop stream = "" then oopsReply else gptLoop stream)⟩ := by
  rcases s with ⟨ws, persona⟩
  cases hws
  simp [handle_text_message, resetIfExpired_of_lt h1, Nat.not_le.mpr h2, h3,
    send_message_gpt]

/-- Witness for `no_audio_turn_errors`: final text "zoo", empty TTS
result. -/
theorem no_audio_turn_errors_w :
    handle_text_message 15 0 (some ⟨some 1, "p"⟩) ⟨0, 86400⟩ "hi"
        [RawMsg.json "response.done" (some "zoo")] [] [] .ok
      = ⟨⟨1, 86400⟩,
          [.replyText recordingMsg, .replyText couldNotProcessMsg], true,
          some (if gptLoop [RawMsg.json "response.done" (some "zoo")] = ""
                then oopsReply
                else gptLoop [RawMsg.json "response.done" (some "zoo")])⟩ :=
  no_audio_turn_errors 15 0 ⟨some 1, "p"⟩ 1 ⟨0, 86400⟩ "hi"
    [RawMsg.json "response.done" (some "zoo")] [] .ok rfl (by decide)
    (by decide) (by decide)

/-- Claim C10: with an existing session and the user under quota, a
message whose text strips to empty still consumes one unit of quota
(count + 1), yet the turn is silently dropped: nothing is forwarded to
the backend and no reply of any kind is sent. -/
theorem empty_text_consumes_quota (max now : Nat) (s : Session)
    (r : RateInfo) (text : String) (stream : List RawMsg)
    (tts ogg : List Nat) (v : VoiceSendResult) (h1 : now < r.resetTime)
    (h2 : r.count < max) (h3 : pyStrip text = "") :
    handle_text_message max now (some s) r text stream tts ogg v
      = ⟨⟨r.count + 1, r.resetTime⟩, [], false, none⟩ := by
  simp [handle_text_message, resetIfExpired_of_lt h1, Nat.not_le.mpr h2, h3]

/-- Witness for `empty_text_consumes_quota`: a whitespace-only message at
count 2 leaves count 3, with no actions and no forward. -/
theorem empty_text_consumes_quota_w :
    handle_text_message 15 50 (some ⟨some 1, "p"⟩) ⟨2, 86400⟩ "   " [] [] [] .ok
      = ⟨⟨3, 86400⟩, [], false, none⟩ :=
  empty_text_consumes_quota 15 50 ⟨some 1, "p"⟩ ⟨2, 86400⟩ "   " [] [] [] .ok
    (by decide) (by decide) (by decide)
